import Mathlib

/-!
# Verification of the model-loading and camera pipeline of "Escape the Abyss"

A shallow embedding of the repository's model loader (`ModelLoader`:
`loadModel`, `processNode`, `processMesh`, `loadTexture`,
`loadTextureFromFile`, `draw`, the destructor) and of the camera input
handlers (`mouseMotion` / `processMouseMovement`, `processKeyboard` /
`processKeyboardInput`).

Float values are embedded as exact rationals (`Rat`); OpenGL is embedded as
an explicit state (`GLState`) holding fresh-name counters and a trace of
issued GL calls, plus the list of lines written to the error stream.  The
Assimp importer and the stb image decoder are parameters of the functions
that call them (`String → Option AiScene`, `String → Option StbImage`),
mirroring their role as external collaborators.
-/

namespace Abyss

/-! ## OpenGL constants (numeric values from the GL headers) -/

def GL_TEXTURE_2D : Nat := 0x0DE1
def GL_TEXTURE_WRAP_S : Nat := 0x2802
def GL_TEXTURE_WRAP_T : Nat := 0x2803
def GL_TEXTURE_MIN_FILTER : Nat := 0x2801
def GL_TEXTURE_MAG_FILTER : Nat := 0x2800
def GL_REPEAT : Nat := 0x2901
def GL_LINEAR_MIPMAP_LINEAR : Nat := 0x2703
def GL_LINEAR : Nat := 0x2601
def GL_RED : Nat := 0x1903
def GL_RGB : Nat := 0x1907
def GL_RGBA : Nat := 0x1908
def GL_UNSIGNED_BYTE : Nat := 0x1401
def GL_UNSIGNED_INT : Nat := 0x1405
def GL_ARRAY_BUFFER : Nat := 0x8892
def GL_ELEMENT_ARRAY_BUFFER : Nat := 0x8893
def GL_TEXTURE0 : Nat := 0x84C0
def GL_TRIANGLES : Nat := 0x0004
def GL_FLOAT : Nat := 0x1406

/-! ## GL call trace -/

/-- One OpenGL call issued by the loader, as recorded in the trace.
`bufferDataFloats` / `bufferDataUints` record the `glBufferData` calls of
`processMesh`; their `dataPtr` field is the `&vec[0]` read, embedded totally
as `vec[0]?` (so `none` marks the out-of-bounds element-0 access on an
empty vector). -/
inductive GLCall where
  | genTextures (id : Nat)
  | bindTexture (target id : Nat)
  | texParameteri (target pname param : Nat)
  | texImage2D (target level internalFormat width height border format pxType : Nat)
  | generateMipmap (target : Nat)
  | genVertexArrays (id : Nat)
  | genBuffers (id : Nat)
  | bindVertexArray (id : Nat)
  | bindBuffer (target id : Nat)
  | bufferDataFloats (target byteSize : Nat) (dataPtr : Option Rat)
  | bufferDataUints (target byteSize : Nat) (dataPtr : Option Nat)
  | vertexAttribPointer (index size ty stride offset : Nat)
  | enableVertexAttribArray (index : Nat)
  | activeTexture (unit : Nat)
  | drawElements (mode count ty : Nat)
  | deleteVertexArrays (id : Nat)
  | deleteBuffers (id : Nat)
  deriving DecidableEq, Repr

/-- The OpenGL + stderr state threaded through the loader.  GL object names
are modelled by per-kind counters (`glGen*` returns the next fresh nonzero
name); `calls` is the trace of GL calls issued so far and `cerr` the lines
written to `std::cerr`. -/
structure GLState where
  nextTextureName : Nat
  nextArrayName : Nat
  nextBufferName : Nat
  calls : List GLCall
  cerr : List String
  deriving DecidableEq, Repr

/-- The state at program start: no GL names handed out, empty trace. -/
def initGL : GLState :=
  { nextTextureName := 0, nextArrayName := 0, nextBufferName := 0
    calls := [], cerr := [] }

/-- Append one GL call to the trace. -/
def GLState.emit (st : GLState) (c : GLCall) : GLState :=
  { st with calls := st.calls ++ [c] }

/-- Append several GL calls to the trace. -/
def GLState.emits (st : GLState) (cs : List GLCall) : GLState :=
  { st with calls := st.calls ++ cs }

/-- Write one line to `std::cerr`. -/
def GLState.logErr (st : GLState) (msg : String) : GLState :=
  { st with cerr := st.cerr ++ [msg] }

/-! ## External collaborators -/

/-- Result of a successful `stbi_load`: decoded image dimensions and
component count (the pixel bytes themselves are irrelevant to the claims). -/
structure StbImage where
  width : Nat
  height : Nat
  nrChannels : Nat
  deriving DecidableEq, Repr

/-- The stb image decoder, as an environment: `none` is a failed decode
(`stbi_load` returning `NULL`). -/
def StbiEnv : Type := String → Option StbImage

/-! ## Path construction -/

/-- `PREFIX_RELATIVE_PATH` from `model_loader.cpp`. -/
def PREFIX_RELATIVE_PATH : String := "../assets/models/"

/-! ## `ModelLoader::loadTextureFromFile` -/

/-- The channel-count-to-format ternary of `loadTextureFromFile`:
`nrChannels == 1 ? GL_RED : nrChannels == 3 ? GL_RGB : GL_RGBA`. -/
def texFormat (nrChannels : Nat) : Nat :=
  if nrChannels = 1 then GL_RED
  else if nrChannels = 3 then GL_RGB
  else GL_RGBA

/-- Shallow embedding of `ModelLoader::loadTextureFromFile`.  Generates a
fresh texture name, binds it, sets wrap/filter parameters, then decodes the
image: on success it infers the format from the component count, uploads the
image and generates mipmaps; on failure it logs an error.  Either way it
unbinds and returns the generated texture name. -/
def loadTextureFromFile (stbi : StbiEnv) (texturePath : String) (st : GLState) :
    Nat × GLState :=
  let textureID := st.nextTextureName + 1
  let st := { st with nextTextureName := textureID }
  let st := st.emit (GLCall.genTextures textureID)
  let st := st.emit (GLCall.bindTexture GL_TEXTURE_2D textureID)
  let st := st.emits
    [GLCall.texParameteri GL_TEXTURE_2D GL_TEXTURE_WRAP_S GL_REPEAT,
     GLCall.texParameteri GL_TEXTURE_2D GL_TEXTURE_WRAP_T GL_REPEAT,
     GLCall.texParameteri GL_TEXTURE_2D GL_TEXTURE_MIN_FILTER GL_LINEAR_MIPMAP_LINEAR,
     GLCall.texParameteri GL_TEXTURE_2D GL_TEXTURE_MAG_FILTER GL_LINEAR]
  let st :=
    match stbi texturePath with
    | some data =>
        let format := texFormat data.nrChannels
        let st := st.emit (GLCall.texImage2D GL_TEXTURE_2D 0 format
          data.width data.height 0 format GL_UNSIGNED_BYTE)
        st.emit (GLCall.generateMipmap GL_TEXTURE_2D)
    | none =>
        st.logErr ("Texture failed to load at path: " ++ texturePath)
  let st := st.emit (GLCall.bindTexture GL_TEXTURE_2D 0)
  (textureID, st)

/-! ## Assimp data model -/

/-- A 3D vector of the imported data (`aiVector3D`), floats as rationals. -/
structure AiVec3 where
  x : Rat
  y : Rat
  z : Rat
  deriving DecidableEq, Repr

/-- A 2D texture coordinate (the `.x`/`.y` of the first channel's
`aiVector3D`). -/
structure AiVec2 where
  x : Rat
  y : Rat
  deriving DecidableEq, Repr

/-- A face of an imported mesh (`aiFace`): its index list. -/
structure AiFace where
  mIndices : List Nat
  deriving DecidableEq, Repr

/-- An imported mesh (`aiMesh`).  `mNormals = none` embeds
`HasNormals() == false` (null `mNormals` array); `mTextureCoords0 = none`
embeds `mTextureCoords[0] == nullptr`. -/
structure AiMesh where
  mVertices : List AiVec3
  mNormals : Option (List AiVec3)
  mTextureCoords0 : Option (List AiVec2)
  mFaces : List AiFace
  mMaterialIndex : Nat
  deriving DecidableEq, Repr

instance : Inhabited AiMesh := ⟨⟨[], none, none, [], 0⟩⟩

/-- An imported material (`aiMaterial`); only the diffuse texture slot is
ever queried, so only it is modelled: `GetTexture(aiTextureType_DIFFUSE, 0, &p)`
succeeds exactly when `diffuse0 = some p`. -/
structure AiMaterial where
  diffuse0 : Option String
  deriving DecidableEq, Repr

/-- A node of the imported scene graph (`aiNode`): mesh indices into the
scene's mesh array, plus child nodes. -/
inductive AiNode where
  | mk (mMeshes : List Nat) (mChildren : List AiNode)

/-- Mesh indices stored at a node. -/
def AiNode.mMeshes : AiNode → List Nat
  | .mk ms _ => ms

/-- Children of a node. -/
def AiNode.mChildren : AiNode → List AiNode
  | .mk _ cs => cs

/-- An imported scene (`aiScene`).  `flagsIncomplete` embeds
`mFlags & AI_SCENE_FLAGS_INCOMPLETE`; `mRootNode = none` embeds a null root
node. -/
structure AiScene where
  mMeshes : List AiMesh
  mMaterials : List AiMaterial
  flagsIncomplete : Bool
  mRootNode : Option AiNode

/-- The importer (`Assimp::Importer::ReadFile` with the triangulate /
flip-UV / gen-normals flags), as an environment: `none` embeds a null scene
pointer. -/
def ImporterEnv : Type := String → Option AiScene

/-! ## The loader's own data model (`model_loader.h`) -/

/-- A texture entry of a `Mesh` (the `{id, type, name}` pushed by
`processMesh`). -/
structure Texture where
  id : Nat
  ty : String
  name : String
  deriving DecidableEq, Repr

/-- A built `Mesh`: interleaved vertex floats, flattened indices, textures,
and the three GL object names. -/
structure Mesh where
  vertices : List Rat
  indices : List Nat
  textures : List Texture
  VAO : Nat
  VBO : Nat
  EBO : Nat
  deriving DecidableEq, Repr

/-- A `ModelLoader` instance: its `meshes` member. -/
structure ModelLoader where
  meshes : List Mesh
  deriving DecidableEq, Repr

/-! ## `ModelLoader::processMesh` -/

/-- The vertex-building loop of `processMesh`: for each `i < mNumVertices`
push the three position components, then the three normal components (zeros
when `HasNormals()` is false), then the two coordinates of texture channel 0
(zeros when absent). -/
def buildVertices (mesh : AiMesh) : List Rat :=
  (List.range mesh.mVertices.length).foldl (fun verts i =>
    let v := mesh.mVertices.getD i ⟨0, 0, 0⟩
    let verts := verts ++ [v.x, v.y, v.z]
    let verts :=
      match mesh.mNormals with
      | some ns =>
          let n := ns.getD i ⟨0, 0, 0⟩
          verts ++ [n.x, n.y, n.z]
      | none => verts ++ [0, 0, 0]
    match mesh.mTextureCoords0 with
    | some ts =>
        let t := ts.getD i ⟨0, 0⟩
        verts ++ [t.x, t.y]
    | none => verts ++ [0, 0]) []

/-- The index-building loop of `processMesh`: for each face, push each of its
indices in order. -/
def buildIndices (mesh : AiMesh) : List Nat :=
  mesh.mFaces.foldl (fun idxs face =>
    face.mIndices.foldl (fun idxs j => idxs ++ [j]) idxs) []

/-- `aiMaterial::GetTexture(type, 0, &path)`; only the diffuse type is ever
requested by this program. -/
def AiMaterial.getTexture0 (material : AiMaterial) : Option String :=
  material.diffuse0

/-- Shallow embedding of `ModelLoader::loadTexture` (for the diffuse slot):
if the material carries a texture path, build the file path and defer to
`loadTextureFromFile`; otherwise return 0 with the GL state untouched. -/
def loadTexture (stbi : StbiEnv) (material : AiMaterial) (model_name : String)
    (st : GLState) : Nat × GLState :=
  match material.getTexture0 with
  | some texturePath =>
      loadTextureFromFile stbi
        (PREFIX_RELATIVE_PATH ++ "/" ++ model_name ++ "/" ++ texturePath) st
  | none => (0, st)

/-- Shallow embedding of `ModelLoader::processMesh`.  Builds the interleaved
vertex array and flat index array, resolves the diffuse texture through the
mesh's material (`mMaterialIndex >= 0` is always true for the unsigned
index, so the body reduces to the material lookup), then creates the VAO and
the two buffers and uploads the arrays.  The `&vertices[0]` / `&indices[0]`
arguments of `glBufferData` are recorded as `vertices[0]?` / `indices[0]?`. -/
def processMesh (stbi : StbiEnv) (scene : AiScene) (model_name : String)
    (mesh : AiMesh) (st : GLState) : Mesh × GLState :=
  let vertices := buildVertices mesh
  let indices := buildIndices mesh
  let texPhase : List Texture × GLState :=
    match scene.mMaterials[mesh.mMaterialIndex]? with
    | some material =>
        let r := loadTexture stbi material model_name st
        let diffuseTexture := r.1
        if diffuseTexture ≠ 0 then
          ([⟨diffuseTexture, "texture_diffuse", "diffuse"⟩], r.2)
        else ([], r.2)
    | none => ([], st)
  let textures := texPhase.1
  let st := texPhase.2
  let vao := st.nextArrayName + 1
  let vbo := st.nextBufferName + 1
  let ebo := st.nextBufferName + 2
  let st := { st with nextArrayName := vao, nextBufferName := ebo }
  let st := st.emits
    [GLCall.genVertexArrays vao,
     GLCall.genBuffers vbo,
     GLCall.genBuffers ebo,
     GLCall.bindVertexArray vao,
     GLCall.bindBuffer GL_ARRAY_BUFFER vbo,
     GLCall.bufferDataFloats GL_ARRAY_BUFFER (vertices.length * 4) vertices[0]?,
     GLCall.bindBuffer GL_ELEMENT_ARRAY_BUFFER ebo,
     GLCall.bufferDataUints GL_ELEMENT_ARRAY_BUFFER (indices.length * 4) indices[0]?,
     GLCall.vertexAttribPointer 0 3 GL_FLOAT (8 * 4) 0,
     GLCall.enableVertexAttribArray 0,
     GLCall.vertexAttribPointer 1 3 GL_FLOAT (8 * 4) (3 * 4),
     GLCall.enableVertexAttribArray 1,
     GLCall.vertexAttribPointer 2 2 GL_FLOAT (8 * 4) (6 * 4),
     GLCall.enableVertexAttribArray 2,
     GLCall.bindVertexArray 0]
  ({ vertices := vertices, indices := indices, textures := textures
     VAO := vao, VBO := vbo, EBO := ebo }, st)

/-! ## `ModelLoader::processNode` and `ModelLoader::loadModel` -/

/-- The per-node mesh loop of `processNode`: for each mesh index stored at
the node, look up the scene mesh and append the processed `Mesh` to the
loader's list. -/
def processNodeMeshes (stbi : StbiEnv) (scene : AiScene) (model_name : String) :
    List Nat → List Mesh → GLState → List Mesh × GLState
  | [], meshes, st => (meshes, st)
  | idx :: rest, meshes, st =>
      match scene.mMeshes[idx]? with
      | some mesh =>
          let p := processMesh stbi scene model_name mesh st
          processNodeMeshes stbi scene model_name rest (meshes ++ [p.1]) p.2
      | none => processNodeMeshes stbi scene model_name rest meshes st

mutual

/-- Shallow embedding of `ModelLoader::processNode`: process the node's own
meshes (appending to the loader's list), then recurse into the children in
order. -/
def processNode (stbi : StbiEnv) (scene : AiScene) (model_name : String) :
    AiNode → List Mesh → GLState → List Mesh × GLState
  | .mk mMeshes mChildren, meshes, st =>
      let p := processNodeMeshes stbi scene model_name mMeshes meshes st
      processChildren stbi scene model_name mChildren p.1 p.2

/-- The child loop of `processNode`. -/
def processChildren (stbi : StbiEnv) (scene : AiScene) (model_name : String) :
    List AiNode → List Mesh → GLState → List Mesh × GLState
  | [], meshes, st => (meshes, st)
  | c :: cs, meshes, st =>
      let p := processNode stbi scene model_name c meshes st
      processChildren stbi scene model_name cs p.1 p.2

end

/-- The scene file path `loadModel` hands to the importer. -/
def modelFilePath (model_name : String) : String :=
  PREFIX_RELATIVE_PATH ++ "/" ++ model_name ++ "/" ++ model_name ++ ".obj"

/-- Shallow embedding of `ModelLoader::loadModel`: clear the mesh list, ask
the importer for the scene, and on a null / incomplete / rootless scene log
the Assimp error and return with the loader left empty; otherwise process
the root node recursively. -/
def loadModel (importer : ImporterEnv) (stbi : StbiEnv)
    (_loader : ModelLoader) (model_name : String) (st : GLState) :
    ModelLoader × GLState :=
  let meshes : List Mesh := []
  match importer (modelFilePath model_name) with
  | none => ({ meshes := meshes }, st.logErr "ERROR::ASSIMP:: ")
  | some scene =>
      if scene.flagsIncomplete then
        ({ meshes := meshes }, st.logErr "ERROR::ASSIMP:: ")
      else
        match scene.mRootNode with
        | none => ({ meshes := meshes }, st.logErr "ERROR::ASSIMP:: ")
        | some root =>
            let p := processNode stbi scene model_name root meshes st
            ({ meshes := p.1 }, p.2)

/-! ## `ModelLoader::draw` and the destructor -/

/-- The body of the draw loop for one mesh: bind the first texture when the
texture list is nonempty, then bind the VAO and issue the indexed draw. -/
def drawMesh (mesh : Mesh) (st : GLState) : GLState :=
  let st :=
    match mesh.textures with
    | [] => st
    | t :: _ =>
        st.emits [GLCall.activeTexture GL_TEXTURE0,
                  GLCall.bindTexture GL_TEXTURE_2D t.id]
  st.emits [GLCall.bindVertexArray mesh.VAO,
            GLCall.drawElements GL_TRIANGLES mesh.indices.length GL_UNSIGNED_INT,
            GLCall.bindVertexArray 0]

/-- Shallow embedding of `ModelLoader::draw`: draw every loaded mesh. -/
def ModelLoader.draw (loader : ModelLoader) (st : GLState) : GLState :=
  loader.meshes.foldl (fun st mesh => drawMesh mesh st) st

/-- Shallow embedding of `ModelLoader::~ModelLoader`: delete each mesh's
vertex array and the two buffers. -/
def ModelLoader.destroy (loader : ModelLoader) (st : GLState) : GLState :=
  loader.meshes.foldl (fun st mesh =>
    st.emits [GLCall.deleteVertexArrays mesh.VAO,
              GLCall.deleteBuffers mesh.VBO,
              GLCall.deleteBuffers mesh.EBO]) st

/-! ## Camera state and input handlers (`main.cpp` variants) -/

/-- A `glm::vec3` with float components as rationals. -/
structure Vec3 where
  x : Rat
  y : Rat
  z : Rat
  deriving DecidableEq, Repr

/-- Componentwise vector addition. -/
def Vec3.add (a b : Vec3) : Vec3 := ⟨a.x + b.x, a.y + b.y, a.z + b.z⟩

/-- Componentwise vector subtraction. -/
def Vec3.sub (a b : Vec3) : Vec3 := ⟨a.x - b.x, a.y - b.y, a.z - b.z⟩

/-- Scalar multiple of a vector. -/
def Vec3.scale (c : Rat) (v : Vec3) : Vec3 := ⟨c * v.x, c * v.y, c * v.z⟩

/-- `glm::cross`. -/
def Vec3.cross (a b : Vec3) : Vec3 :=
  ⟨a.y * b.z - a.z * b.y, a.z * b.x - a.x * b.z, a.x * b.y - a.y * b.x⟩

/-- The transcendental operations the camera code uses
(`cos(glm::radians ·)`, `sin(glm::radians ·)`, `glm::normalize`), kept
abstract: the claims about the handlers hold for every interpretation of
these and the embedding stays executable. -/
structure TrigOps where
  cosDeg : Rat → Rat
  sinDeg : Rat → Rat
  normalize : Vec3 → Vec3

/-- The spherical-to-Cartesian front-vector formula shared by both mouse
handlers: `(cos yaw * cos pitch, sin pitch, sin yaw * cos pitch)`,
angles in degrees. -/
def frontFromYawPitch (ops : TrigOps) (yaw pitch : Rat) : Vec3 :=
  ⟨ops.cosDeg yaw * ops.cosDeg pitch,
   ops.sinDeg pitch,
   ops.sinDeg yaw * ops.cosDeg pitch⟩

/-- The global camera / input state of `main.cpp`: camera vectors, yaw and
pitch (degrees), last pointer sample, the first-sample flag, the movement
speed, and the `keys[256]` table (indexed here by the key's character). -/
structure CameraState where
  cameraPos : Vec3
  cameraFront : Vec3
  cameraUp : Vec3
  yaw : Rat
  pitch : Rat
  lastX : Rat
  lastY : Rat
  firstMouse : Bool
  cameraSpeed : Rat
  keys : Char → Bool

/-- The initial global state of `main.cpp`: camera at `(0,0,5)` looking down
`-z`, yaw `-90`, pitch `0`, pointer baseline at the window centre, first
mouse sample pending, speed `0.05`, no key pressed. -/
def initCameraState : CameraState :=
  { cameraPos := ⟨0, 0, 5⟩
    cameraFront := ⟨0, 0, -1⟩
    cameraUp := ⟨0, 1, 0⟩
    yaw := -90
    pitch := 0
    lastX := 2400 / 2
    lastY := 1800 / 2
    firstMouse := true
    cameraSpeed := 1 / 20
    keys := fun _ => false }

/-- Shallow embedding of `mouseMotion` (the GLUT variant, sensitivity
`0.1`): establish the baseline on the first sample, accumulate the scaled
pointer offsets into yaw and pitch, clamp pitch to `[-89, 89]`, and
recompute the front vector. -/
def mouseMotion (ops : TrigOps) (x y : Rat) (s : CameraState) : CameraState :=
  let s := if s.firstMouse then
      { s with lastX := x, lastY := y, firstMouse := false }
    else s
  let xoffset := x - s.lastX
  let yoffset := s.lastY - y
  let s := { s with lastX := x, lastY := y }
  let sensitivity : Rat := 1 / 10
  let xoffset := xoffset * sensitivity
  let yoffset := yoffset * sensitivity
  let s := { s with yaw := s.yaw + xoffset, pitch := s.pitch + yoffset }
  let s := if s.pitch > 89 then { s with pitch := 89 } else s
  let s := if s.pitch < -89 then { s with pitch := -89 } else s
  { s with cameraFront := ops.normalize (frontFromYawPitch ops s.yaw s.pitch) }

/-- Shallow embedding of `processMouseMovement` (the second variant,
sensitivity `0.05`); identical to `mouseMotion` apart from the constant. -/
def processMouseMovement (ops : TrigOps) (xpos ypos : Rat) (s : CameraState) :
    CameraState :=
  let s := if s.firstMouse then
      { s with lastX := xpos, lastY := ypos, firstMouse := false }
    else s
  let xOffset := xpos - s.lastX
  let yOffset := s.lastY - ypos
  let s := { s with lastX := xpos, lastY := ypos }
  let sensitivity : Rat := 1 / 20
  let xOffset := xOffset * sensitivity
  let yOffset := yOffset * sensitivity
  let s := { s with yaw := s.yaw + xOffset, pitch := s.pitch + yOffset }
  let s := if s.pitch > 89 then { s with pitch := 89 } else s
  let s := if s.pitch < -89 then { s with pitch := -89 } else s
  { s with cameraFront := ops.normalize (frontFromYawPitch ops s.yaw s.pitch) }

/-- Shallow embedding of `processKeyboard` (the GLUT variant): `w`/`s` move
along the front vector, `a`/`d` along the normalized right vector, all
scaled by the camera speed. -/
def processKeyboard (ops : TrigOps) (s : CameraState) : CameraState :=
  let s := if s.keys 'w' then
      { s with cameraPos := s.cameraPos.add (Vec3.scale s.cameraSpeed s.cameraFront) }
    else s
  let s := if s.keys 's' then
      { s with cameraPos := s.cameraPos.sub (Vec3.scale s.cameraSpeed s.cameraFront) }
    else s
  let s := if s.keys 'a' then
      { s with cameraPos := (s.cameraPos.sub
          (Vec3.scale s.cameraSpeed (ops.normalize (s.cameraFront.cross s.cameraUp)))) }
    else s
  let s := if s.keys 'd' then
      { s with cameraPos := (s.cameraPos.add
          (Vec3.scale s.cameraSpeed (ops.normalize (s.cameraFront.cross s.cameraUp)))) }
    else s
  s

/-- Shallow embedding of `processKeyboardInput` (the second variant):
`W`/`S`/`A`/`D` move the camera, `R`/`F` raise and lower the movement
speed by `0.01`. -/
def processKeyboardInput (ops : TrigOps) (s : CameraState) : CameraState :=
  let s := if s.keys 'W' then
      { s with cameraPos := s.cameraPos.add (Vec3.scale s.cameraSpeed s.cameraFront) }
    else s
  let s := if s.keys 'S' then
      { s with cameraPos := s.cameraPos.sub (Vec3.scale s.cameraSpeed s.cameraFront) }
    else s
  let s := if s.keys 'A' then
      { s with cameraPos := (s.cameraPos.sub
          (Vec3.scale s.cameraSpeed (ops.normalize (s.cameraFront.cross s.cameraUp)))) }
    else s
  let s := if s.keys 'D' then
      { s with cameraPos := (s.cameraPos.add
          (Vec3.scale s.cameraSpeed (ops.normalize (s.cameraFront.cross s.cameraUp)))) }
    else s
  let s := if s.keys 'R' then { s with cameraSpeed := s.cameraSpeed + 1 / 100 } else s
  let s := if s.keys 'F' then { s with cameraSpeed := s.cameraSpeed - 1 / 100 } else s
  s

/-! ## Specification-side descriptions

These definitions restate, in the spec's vocabulary, what the source-side
functions above are claimed to compute; the claim theorems compare the two. -/

/-- The 8-float group the spec prescribes for vertex `i`: the three position
components, then the three normal components (or zeros when the mesh has no
normals), then the two coordinates of texture channel 0 (or zeros when
absent). -/
def vertexGroup (mesh : AiMesh) (i : Nat) : List Rat :=
  let v := mesh.mVertices.getD i ⟨0, 0, 0⟩
  [v.x, v.y, v.z] ++
  (match mesh.mNormals with
   | some ns =>
       let n := ns.getD i ⟨0, 0, 0⟩
       [n.x, n.y, n.z]
   | none => [0, 0, 0]) ++
  (match mesh.mTextureCoords0 with
   | some ts =>
       let t := ts.getD i ⟨0, 0⟩
       [t.x, t.y]
   | none => [0, 0])

/-- Pitch clamping as the spec describes it: cut off at `+89` and `-89`
degrees. -/
def clampPitch (p : Rat) : Rat :=
  if p > 89 then 89 else if p < -89 then -89 else p

/-- The mouse-look step with the sensitivity constant abstracted out:
`mouseMotion` is this at `1/10` and `processMouseMovement` at `1/20`
(definitional equalities proved below). -/
def mouseUpdate (ops : TrigOps) (sensitivity : Rat) (x y : Rat)
    (s : CameraState) : CameraState :=
  let s := if s.firstMouse then
      { s with lastX := x, lastY := y, firstMouse := false }
    else s
  let xoffset := x - s.lastX
  let yoffset := s.lastY - y
  let s := { s with lastX := x, lastY := y }
  let xoffset := xoffset * sensitivity
  let yoffset := yoffset * sensitivity
  let s := { s with yaw := s.yaw + xoffset, pitch := s.pitch + yoffset }
  let s := if s.pitch > 89 then { s with pitch := 89 } else s
  let s := if s.pitch < -89 then { s with pitch := -89 } else s
  { s with cameraFront := ops.normalize (frontFromYawPitch ops s.yaw s.pitch) }

mutual

/-- The mesh indices reachable from a node in depth-first order, a node's
own meshes before its children's. -/
def reachableMeshIndices : AiNode → List Nat
  | .mk ms cs => ms ++ reachableMeshIndicesOf cs

/-- `reachableMeshIndices` over a list of sibling nodes, left to right. -/
def reachableMeshIndicesOf : List AiNode → List Nat
  | [] => []
  | c :: cs => reachableMeshIndices c ++ reachableMeshIndicesOf cs

end

/-- The geometry content of a built `Mesh` (vertex floats and indices);
GL object names are excluded because they depend on allocation order. -/
def meshData (m : Mesh) : List Rat × List Nat := (m.vertices, m.indices)

/-- The geometry a source mesh should flatten to. -/
def sourceData (sm : AiMesh) : List Rat × List Nat :=
  (buildVertices sm, buildIndices sm)

/-- GL calls that touch texture objects (generation, binding, parameters,
upload, mipmaps, unit selection). -/
def GLCall.isTextureCall : GLCall → Bool
  | .genTextures _ => true
  | .bindTexture _ _ => true
  | .texParameteri _ _ _ => true
  | .texImage2D _ _ _ _ _ _ _ _ => true
  | .generateMipmap _ => true
  | .activeTexture _ => true
  | _ => false

/-- GL calls that upload image data or build mipmaps. -/
def GLCall.isUploadCall : GLCall → Bool
  | .texImage2D _ _ _ _ _ _ _ _ => true
  | .generateMipmap _ => true
  | _ => false

/-! ## Concrete inputs used by counterexamples and witnesses -/

/-- A decoder environment on which every decode fails. -/
def stbiFail : StbiEnv := fun _ => none

/-- A decoder environment that decodes every path to a 2×2, 3-channel
image. -/
def stbiRGB : StbiEnv := fun _ => some ⟨2, 2, 3⟩

/-- An importer that fails to open every file (null scene). -/
def importerFail : ImporterEnv := fun _ => none

/-- A single-triangle source mesh with normals and one texture channel. -/
def triMesh : AiMesh :=
  { mVertices := [⟨0, 0, 0⟩, ⟨1, 0, 0⟩, ⟨0, 1, 0⟩]
    mNormals := some [⟨0, 0, 1⟩, ⟨0, 0, 1⟩, ⟨0, 0, 1⟩]
    mTextureCoords0 := some [⟨0, 0⟩, ⟨1, 0⟩, ⟨0, 1⟩]
    mFaces := [⟨[0, 1, 2]⟩]
    mMaterialIndex := 0 }

/-- A single-mesh scene whose only material references a diffuse texture. -/
def triScene : AiScene :=
  { mMeshes := [triMesh]
    mMaterials := [{ diffuse0 := some "tex.png" }]
    flagsIncomplete := false
    mRootNode := some (.mk [0] []) }

/-- The same scene with a material that has no diffuse texture reference. -/
def plainScene : AiScene :=
  { mMeshes := [triMesh]
    mMaterials := [{ diffuse0 := none }]
    flagsIncomplete := false
    mRootNode := some (.mk [0] []) }

/-- An importer that yields `triScene` for every path. -/
def importerTri : ImporterEnv := fun _ => some triScene

/-- Trivial interpretations of the camera's transcendental operations, used
only to instantiate universally quantified statements at a concrete input. -/
def noTrig : TrigOps :=
  { cosDeg := fun _ => 0, sinDeg := fun _ => 0, normalize := fun v => v }

/-! ## List helper lemmas -/

/-- A `foldl` whose body appends a chunk per element is the initial
accumulator followed by the concatenation of the chunks. -/
theorem foldl_append_chunks {α β : Type} (g : β → List α) :
    ∀ (l : List β) (acc : List α),
      l.foldl (fun a b => a ++ g b) acc = acc ++ l.flatMap g := by
  intro l
  induction l with
  | nil => intro acc; simp
  | cons b bs ih =>
      intro acc
      simp only [List.foldl_cons, List.flatMap_cons, ih]
      simp [List.append_assoc]

/-- A `foldl` that appends one element per element is plain append. -/
theorem foldl_snoc {α : Type} :
    ∀ (l : List α) (acc : List α),
      l.foldl (fun a b => a ++ [b]) acc = acc ++ l := by
  intro l
  induction l with
  | nil => intro acc; simp
  | cons b bs ih =>
      intro acc
      simp only [List.foldl_cons, ih]
      simp

/-- Length of a concatenation of fixed-size chunks. -/
theorem length_flatMap_const {α β : Type} (g : β → List α) (k : Nat)
    (hg : ∀ b, (g b).length = k) :
    ∀ l : List β, (l.flatMap g).length = l.length * k := by
  intro l
  induction l with
  | nil => simp
  | cons b bs ih =>
      simp [List.flatMap_cons, hg, ih, Nat.succ_mul, Nat.add_comm]

/-- Extracting the `i`-th fixed-size chunk from a concatenation of chunks
indexed by `List.range'`. -/
theorem slice_flatMap_range' {α : Type} (g : Nat → List α) (k : Nat)
    (hg : ∀ i, (g i).length = k) :
    ∀ (cnt s i : Nat), i < cnt →
      (((List.range' s cnt).flatMap g).drop (k * i)).take k = g (s + i) := by
  intro cnt
  induction cnt with
  | zero => intro s i h; omega
  | succ n ih =>
      intro s i h
      rw [List.range'_succ, List.flatMap_cons]
      cases i with
      | zero =>
          rw [Nat.mul_zero, List.drop_zero, Nat.add_zero, ← hg s]
          exact List.take_left _ _
      | succ j =>
          have hk : k * (j + 1) = (g s).length + k * j := by
            rw [hg s]; ring
          rw [hk, List.drop_append]
          have := ih (s + 1) j (by omega)
          rw [this]
          congr 1
          omega

/-- Extracting the `i`-th fixed-size chunk from a concatenation of chunks
indexed by `List.range`. -/
theorem slice_flatMap_range {α : Type} (g : Nat → List α) (k : Nat)
    (hg : ∀ i, (g i).length = k) (n i : Nat) (h : i < n) :
    (((List.range n).flatMap g).drop (k * i)).take k = g i := by
  rw [List.range_eq_range']
  have := slice_flatMap_range' g k hg n 0 i h
  simpa using this

/-- A list's element-0 lookup succeeds exactly on nonempty lists. -/
theorem getElem?_zero_isSome_iff {α : Type} (l : List α) :
    l[0]?.isSome = true ↔ 1 ≤ l.length := by
  cases Nat.lt_or_ge 0 l.length with
  | inl h => simp [List.getElem?_eq_getElem h]; omega
  | inr h => simp [List.getElem?_eq_none h, Nat.le_zero.mp h]

/-! ## Structure of the built vertex and index arrays -/

/-- The vertex-building loop produces exactly the concatenation of the
8-float groups. -/
theorem buildVertices_eq_flatMap (mesh : AiMesh) :
    buildVertices mesh =
      (List.range mesh.mVertices.length).flatMap (vertexGroup mesh) := by
  have hbody : (fun (verts : List Rat) (i : Nat) =>
      let v := mesh.mVertices.getD i ⟨0, 0, 0⟩
      let verts := verts ++ [v.x, v.y, v.z]
      let verts :=
        match mesh.mNormals with
        | some ns =>
            let n := ns.getD i ⟨0, 0, 0⟩
            verts ++ [n.x, n.y, n.z]
        | none => verts ++ [0, 0, 0]
      match mesh.mTextureCoords0 with
      | some ts =>
          let t := ts.getD i ⟨0, 0⟩
          verts ++ [t.x, t.y]
      | none => verts ++ [0, 0]) =
      (fun (verts : List Rat) (i : Nat) => verts ++ vertexGroup mesh i) := by
    funext verts i
    cases h1 : mesh.mNormals <;> cases h2 : mesh.mTextureCoords0 <;>
      simp [vertexGroup, h1, h2]
  rw [buildVertices, hbody, foldl_append_chunks (vertexGroup mesh)]
  simp

/-- Each vertex group holds exactly 8 floats. -/
theorem vertexGroup_length (mesh : AiMesh) (i : Nat) :
    (vertexGroup mesh i).length = 8 := by
  cases h1 : mesh.mNormals <;> cases h2 : mesh.mTextureCoords0 <;>
    simp [vertexGroup, h1, h2]

/-- The built vertex array holds 8 floats per source vertex. -/
theorem buildVertices_length (mesh : AiMesh) :
    (buildVertices mesh).length = 8 * mesh.mVertices.length := by
  rw [buildVertices_eq_flatMap,
    length_flatMap_const (vertexGroup mesh) 8 (vertexGroup_length mesh)]
  simp [Nat.mul_comm]

/-- The index-building loop flattens the faces' index lists in order. -/
theorem buildIndices_eq_flatMap (mesh : AiMesh) :
    buildIndices mesh = mesh.mFaces.flatMap AiFace.mIndices := by
  have hbody : (fun (idxs : List Nat) (face : AiFace) =>
      face.mIndices.foldl (fun idxs j => idxs ++ [j]) idxs) =
      (fun (idxs : List Nat) (face : AiFace) => idxs ++ face.mIndices) := by
    funext idxs face
    exact foldl_snoc face.mIndices idxs
  rw [buildIndices, hbody, foldl_append_chunks AiFace.mIndices]
  simp

/-! ## Claim theorems -/

/-- C3: `processMesh` builds an interleaved vertex array of exactly 8 floats
per source vertex — position, then normals or zeros, then the first texture
channel or zeros — and an index array that concatenates every face's indices
in order; a single-triangle face list yields exactly the 3 indices.  The
last two conjuncts tie the arrays stored in the produced `Mesh` to the
builders. -/
theorem processMesh_vertex_layout (mesh : AiMesh) :
    (buildVertices mesh).length = 8 * mesh.mVertices.length ∧
    (∀ i, i < mesh.mVertices.length →
      ((buildVertices mesh).drop (8 * i)).take 8 = vertexGroup mesh i) ∧
    buildIndices mesh = mesh.mFaces.flatMap AiFace.mIndices ∧
    (∀ i0 i1 i2, mesh.mFaces = [⟨[i0, i1, i2]⟩] → buildIndices mesh = [i0, i1, i2]) ∧
    (∀ stbi scene model_name st,
      (processMesh stbi scene model_name mesh st).1.vertices = buildVertices mesh ∧
      (processMesh stbi scene model_name mesh st).1.indices = buildIndices mesh) := by
  refine ⟨buildVertices_length mesh, ?_, buildIndices_eq_flatMap mesh, ?_, ?_⟩
  · intro i hi
    rw [buildVertices_eq_flatMap]
    exact slice_flatMap_range (vertexGroup mesh) 8 (vertexGroup_length mesh)
      mesh.mVertices.length i hi
  · intro i0 i1 i2 hf
    rw [buildIndices_eq_flatMap, hf]
    simp
  · intro stbi scene model_name st
    exact ⟨rfl, rfl⟩

/-- Witness for C3 at the concrete single-triangle mesh: the first 8-float
slice and the 3 flattened indices. -/
theorem processMesh_vertex_layout_witness :
    0 < triMesh.mVertices.length ∧
    ((buildVertices triMesh).drop (8 * 0)).take 8 = vertexGroup triMesh 0 ∧
    buildIndices triMesh = [0, 1, 2] :=
  ⟨by decide,
   (processMesh_vertex_layout triMesh).2.1 0 (by decide),
   (processMesh_vertex_layout triMesh).2.2.2.1 0 1 2 rfl⟩

/-- C2: when the importer yields a null scene, an incomplete scene, or a
scene without a root node, `loadModel` leaves the loader empty, logs one
Assimp error line, and issues no GL call (the embedding is a total
function, so no exception escapes). -/
theorem loadModel_aborts_on_bad_scene (importer : ImporterEnv) (stbi : StbiEnv)
    (loader : ModelLoader) (model_name : String) (st : GLState)
    (h : importer (modelFilePath model_name) = none ∨
         ∃ scene, importer (modelFilePath model_name) = some scene ∧
           (scene.flagsIncomplete = true ∨ scene.mRootNode = none)) :
    (loadModel importer stbi loader model_name st).1.meshes = [] ∧
    (loadModel importer stbi loader model_name st).2.cerr
      = st.cerr ++ ["ERROR::ASSIMP:: "] ∧
    (loadModel importer stbi loader model_name st).2.calls = st.calls := by
  rcases h with h | ⟨scene, hs, hbad⟩
  · simp [loadModel, h, GLState.logErr]
  · rcases hbad with hb | hb
    · simp [loadModel, hs, hb, GLState.logErr]
    · by_cases hf : scene.flagsIncomplete <;>
        simp [loadModel, hs, hb, hf, GLState.logErr]

/-- Witness for C2: a loader holding one mesh, re-loaded through an importer
that fails to open the file, ends up empty with the error logged. -/
theorem loadModel_aborts_on_bad_scene_witness :
    (loadModel importerFail stbiFail ⟨[]⟩ "monster" initGL).1.meshes = [] ∧
    (loadModel importerFail stbiFail ⟨[]⟩ "monster" initGL).2.cerr
      = initGL.cerr ++ ["ERROR::ASSIMP:: "] ∧
    (loadModel importerFail stbiFail ⟨[]⟩ "monster" initGL).2.calls = initGL.calls :=
  loadModel_aborts_on_bad_scene importerFail stbiFail ⟨[]⟩ "monster" initGL
    (Or.inl rfl)

/-- The trace appended by a failed texture load: setup calls only, no image
upload, no mipmap generation. -/
theorem loadTextureFromFile_fail_calls (stbi : StbiEnv) (path : String)
    (st : GLState) (h : stbi path = none) :
    (loadTextureFromFile stbi path st).2.calls = st.calls ++
      [GLCall.genTextures (st.nextTextureName + 1),
       GLCall.bindTexture GL_TEXTURE_2D (st.nextTextureName + 1),
       GLCall.texParameteri GL_TEXTURE_2D GL_TEXTURE_WRAP_S GL_REPEAT,
       GLCall.texParameteri GL_TEXTURE_2D GL_TEXTURE_WRAP_T GL_REPEAT,
       GLCall.texParameteri GL_TEXTURE_2D GL_TEXTURE_MIN_FILTER GL_LINEAR_MIPMAP_LINEAR,
       GLCall.texParameteri GL_TEXTURE_2D GL_TEXTURE_MAG_FILTER GL_LINEAR,
       GLCall.bindTexture GL_TEXTURE_2D 0] := by
  simp [loadTextureFromFile, h, GLState.emit, GLState.emits, GLState.logErr]

/-- C1, counterexample to the claim as stated: on a decode failure
`loadTextureFromFile` returns the freshly generated handle `1`, not `0`, and
`processMesh` therefore records a texture entry instead of leaving the
textures list empty. -/
theorem loadTextureFromFile_fail_returns_nonzero :
    (loadTextureFromFile stbiFail "../assets/models//monster/tex.png" initGL).1 = 1 ∧
    (1 : Nat) ≠ 0 ∧
    (processMesh stbiFail triScene "monster" triMesh initGL).1.textures
      = [⟨1, "texture_diffuse", "diffuse"⟩] :=
  ⟨rfl, Nat.one_ne_zero, rfl⟩

/-- C1 as amended: a decode failure logs an error and returns the freshly
generated nonzero texture handle with no image uploaded (a blank texture),
and `processMesh` then records that blank texture as the mesh's single
texture entry — the draw proceeds with it bound, not a crash (the embedding
is total). -/
theorem loadTextureFromFile_fail_blank (stbi : StbiEnv) :
    (∀ path st, stbi path = none →
      (loadTextureFromFile stbi path st).1 = st.nextTextureName + 1 ∧
      (loadTextureFromFile stbi path st).1 ≠ 0 ∧
      (loadTextureFromFile stbi path st).2.cerr
        = st.cerr ++ ["Texture failed to load at path: " ++ path] ∧
      (∀ c ∈ (loadTextureFromFile stbi path st).2.calls,
        c ∈ st.calls ∨ c.isUploadCall = false)) ∧
    (∀ scene model_name mesh st material texPath,
      scene.mMaterials[mesh.mMaterialIndex]? = some material →
      material.diffuse0 = some texPath →
      stbi (PREFIX_RELATIVE_PATH ++ "/" ++ model_name ++ "/" ++ texPath) = none →
      (processMesh stbi scene model_name mesh st).1.textures
        = [⟨st.nextTextureName + 1, "texture_diffuse", "diffuse"⟩]) := by
  constructor
  · intro path st h
    refine ⟨rfl, Nat.succ_ne_zero _, ?_, ?_⟩
    · simp [loadTextureFromFile, h, GLState.emit, GLState.emits, GLState.logErr]
    · intro c hc
      rw [loadTextureFromFile_fail_calls stbi path st h, List.mem_append] at hc
      rcases hc with hc | hc
      · exact Or.inl hc
      · right
        fin_cases hc <;> rfl
  · intro scene model_name mesh st material texPath hm hd hfail
    simp [processMesh, hm, loadTexture, AiMaterial.getTexture0, hd,
      loadTextureFromFile, hfail]

/-- Witness for the amended C1 at a concrete failing decode. -/
theorem loadTextureFromFile_fail_blank_witness :
    stbiFail "p" = none ∧
    (loadTextureFromFile stbiFail "p" initGL).1 ≠ 0 ∧
    (processMesh stbiFail triScene "monster" triMesh initGL).1.textures
      = [⟨1, "texture_diffuse", "diffuse"⟩] :=
  ⟨rfl,
   ((loadTextureFromFile_fail_blank stbiFail).1 "p" initGL rfl).2.1,
   (loadTextureFromFile_fail_blank stbiFail).2 triScene "monster" triMesh initGL
     ⟨some "tex.png"⟩ "tex.png" rfl rfl rfl⟩

/-- C8: a successful decode uploads the texture with the format inferred
from the component count (1 → `GL_RED`, 3 → `GL_RGB`, 4 → `GL_RGBA`),
wrap-repeat addressing on both axes, `GL_LINEAR_MIPMAP_LINEAR`
minification with `GL_LINEAR` magnification, and generates mipmaps. -/
theorem loadTextureFromFile_success_uploads (stbi : StbiEnv) (path : String)
    (st : GLState) (img : StbImage) (h : stbi path = some img) :
    (loadTextureFromFile stbi path st).2.calls = st.calls ++
      [GLCall.genTextures (st.nextTextureName + 1),
       GLCall.bindTexture GL_TEXTURE_2D (st.nextTextureName + 1),
       GLCall.texParameteri GL_TEXTURE_2D GL_TEXTURE_WRAP_S GL_REPEAT,
       GLCall.texParameteri GL_TEXTURE_2D GL_TEXTURE_WRAP_T GL_REPEAT,
       GLCall.texParameteri GL_TEXTURE_2D GL_TEXTURE_MIN_FILTER GL_LINEAR_MIPMAP_LINEAR,
       GLCall.texParameteri GL_TEXTURE_2D GL_TEXTURE_MAG_FILTER GL_LINEAR,
       GLCall.texImage2D GL_TEXTURE_2D 0 (texFormat img.nrChannels)
         img.width img.height 0 (texFormat img.nrChannels) GL_UNSIGNED_BYTE,
       GLCall.generateMipmap GL_TEXTURE_2D,
       GLCall.bindTexture GL_TEXTURE_2D 0] ∧
    (img.nrChannels = 1 → texFormat img.nrChannels = GL_RED) ∧
    (img.nrChannels = 3 → texFormat img.nrChannels = GL_RGB) ∧
    (img.nrChannels = 4 → texFormat img.nrChannels = GL_RGBA) := by
  refine ⟨?_, ?_, ?_, ?_⟩
  · simp [loadTextureFromFile, h, GLState.emit, GLState.emits]
  · intro h1; simp [texFormat, h1, GL_RED]
  · intro h3; simp [texFormat, h3, GL_RGB]
  · intro h4; simp [texFormat, h4, GL_RGBA]

/-- Witness for C8 at a concrete 3-channel decode. -/
theorem loadTextureFromFile_success_uploads_witness :
    stbiRGB "x" = some ⟨2, 2, 3⟩ ∧ texFormat 3 = GL_RGB :=
  ⟨rfl,
   (loadTextureFromFile_success_uploads stbiRGB "x" initGL ⟨2, 2, 3⟩ rfl).2.2.1 rfl⟩

/-- C7: when the mesh's material has no diffuse texture reference,
`processMesh` performs no texture operation at all (no name generated, no
texture GL call, nothing logged) and yields an empty textures list; every
produced mesh carries at most one texture; and drawing a mesh with an empty
textures list issues only the VAO bind and the draw call — never a texture
bind. -/
theorem mesh_without_diffuse_untextured :
    (∀ (stbi : StbiEnv) (scene : AiScene) (model_name : String) (mesh : AiMesh)
       (st : GLState) (material : AiMaterial),
      scene.mMaterials[mesh.mMaterialIndex]? = some material →
      material.diffuse0 = none →
      (processMesh stbi scene model_name mesh st).1.textures = [] ∧
      (processMesh stbi scene model_name mesh st).2.nextTextureName
        = st.nextTextureName ∧
      (processMesh stbi scene model_name mesh st).2.cerr = st.cerr ∧
      (∀ c ∈ (processMesh stbi scene model_name mesh st).2.calls,
        c ∈ st.calls ∨ c.isTextureCall = false)) ∧
    (∀ (stbi : StbiEnv) (scene : AiScene) (model_name : String) (mesh : AiMesh)
       (st : GLState),
      (processMesh stbi scene model_name mesh st).1.textures.length ≤ 1) ∧
    (∀ (mesh : Mesh) (st : GLState), mesh.textures = [] →
      (drawMesh mesh st).calls = st.calls ++
        [GLCall.bindVertexArray mesh.VAO,
         GLCall.drawElements GL_TRIANGLES mesh.indices.length GL_UNSIGNED_INT,
         GLCall.bindVertexArray 0] ∧
      (∀ c ∈ (drawMesh mesh st).calls,
        c ∈ st.calls ∨ c.isTextureCall = false)) := by
  refine ⟨?_, ?_, ?_⟩
  · intro stbi scene model_name mesh st material hm hd
    refine ⟨?_, ?_, ?_, ?_⟩
    · simp [processMesh, hm, loadTexture, AiMaterial.getTexture0, hd]
    · simp [processMesh, hm, loadTexture, AiMaterial.getTexture0, hd,
        GLState.emits]
    · simp [processMesh, hm, loadTexture, AiMaterial.getTexture0, hd,
        GLState.emits]
    · intro c hc
      simp only [processMesh, hm, loadTexture, AiMaterial.getTexture0, hd,
        GLState.emits, List.mem_append] at hc
      rcases hc with hc | hc
      · exact Or.inl hc
      · right
        fin_cases hc <;> rfl
  · intro stbi scene model_name mesh st
    cases hm : scene.mMaterials[mesh.mMaterialIndex]? with
    | none => simp [processMesh, hm]
    | some material =>
        simp only [processMesh, hm]
        split <;> simp
  · intro mesh st ht
    refine ⟨?_, ?_⟩
    · simp [drawMesh, ht, GLState.emits]
    · intro c hc
      simp only [drawMesh, ht, GLState.emits, List.mem_append] at hc
      rcases hc with hc | hc
      · exact Or.inl hc
      · right
        fin_cases hc <;> rfl

/-- Witness for C7: the scene whose material lacks a diffuse reference
yields an untextured mesh, and drawing an untextured mesh issues exactly
the VAO bind, the draw, and the VAO unbind. -/
theorem mesh_without_diffuse_untextured_witness :
    plainScene.mMaterials[triMesh.mMaterialIndex]? = some ⟨none⟩ ∧
    (processMesh stbiFail plainScene "monster" triMesh initGL).1.textures = [] ∧
    (drawMesh ⟨[], [0, 1, 2], [], 5, 6, 7⟩ initGL).calls =
      [GLCall.bindVertexArray 5,
       GLCall.drawElements GL_TRIANGLES 3 GL_UNSIGNED_INT,
       GLCall.bindVertexArray 0] :=
  ⟨rfl,
   (mesh_without_diffuse_untextured.1 stbiFail plainScene "monster" triMesh
     initGL ⟨none⟩ rfl rfl).1,
   (mesh_without_diffuse_untextured.2.2 ⟨[], [0, 1, 2], [], 5, 6, 7⟩ initGL rfl).1⟩

/-- C9: the buffer uploads of `processMesh` read element 0 of the built
vertex and index arrays (recorded as the total lookups `…[0]?`), and those
reads succeed exactly when the source mesh has at least one vertex and at
least one flattened face index. -/
theorem processMesh_element0_reads (stbi : StbiEnv) (scene : AiScene)
    (model_name : String) (mesh : AiMesh) (st : GLState) :
    GLCall.bufferDataFloats GL_ARRAY_BUFFER ((buildVertices mesh).length * 4)
        (buildVertices mesh)[0]?
      ∈ (processMesh stbi scene model_name mesh st).2.calls ∧
    GLCall.bufferDataUints GL_ELEMENT_ARRAY_BUFFER ((buildIndices mesh).length * 4)
        (buildIndices mesh)[0]?
      ∈ (processMesh stbi scene model_name mesh st).2.calls ∧
    ((buildVertices mesh)[0]?.isSome = true ↔ 1 ≤ mesh.mVertices.length) ∧
    ((buildIndices mesh)[0]?.isSome = true ↔
      1 ≤ (mesh.mFaces.flatMap AiFace.mIndices).length) := by
  refine ⟨?_, ?_, ?_, ?_⟩
  · simp [processMesh, GLState.emits, List.mem_append]
  · simp [processMesh, GLState.emits, List.mem_append]
  · rw [getElem?_zero_isSome_iff, buildVertices_length]
    omega
  · rw [getElem?_zero_isSome_iff, buildIndices_eq_flatMap]

/-- The destructor's GL trace: three delete calls per owned mesh. -/
theorem destroy_calls_aux :
    ∀ (ms : List Mesh) (st : GLState),
      (ms.foldl (fun st mesh =>
        st.emits [GLCall.deleteVertexArrays mesh.VAO,
                  GLCall.deleteBuffers mesh.VBO,
                  GLCall.deleteBuffers mesh.EBO]) st).calls
      = st.calls ++ ms.flatMap (fun mesh =>
          [GLCall.deleteVertexArrays mesh.VAO,
           GLCall.deleteBuffers mesh.VBO,
           GLCall.deleteBuffers mesh.EBO]) := by
  intro ms
  induction ms with
  | nil => intro st; simp
  | cons m rest ih =>
      intro st
      rw [List.foldl_cons, ih]
      simp [GLState.emits, List.append_assoc]

/-- C6: a `loadModel` call produces exactly the state a load into a fresh
loader would produce — the previously built meshes are discarded first, so
no accumulation survives — and destruction releases the vertex array and
both buffers of every owned mesh. -/
theorem loadModel_discards_previous (importer : ImporterEnv) (stbi : StbiEnv)
    (loader : ModelLoader) (model_name : String) (st : GLState) :
    loadModel importer stbi loader model_name st
      = loadModel importer stbi ⟨[]⟩ model_name st ∧
    (∀ st2 : GLState, (loader.destroy st2).calls = st2.calls ++
      loader.meshes.flatMap (fun mesh =>
        [GLCall.deleteVertexArrays mesh.VAO,
         GLCall.deleteBuffers mesh.VBO,
         GLCall.deleteBuffers mesh.EBO])) := by
  refine ⟨rfl, ?_⟩
  intro st2
  exact destroy_calls_aux loader.meshes st2

/-- C10: processing accumulated keyboard input leaves the whole orientation
state — yaw, pitch, front vector, up vector — untouched (as well as the
mouse baseline and key table); `processKeyboard` also leaves the speed
untouched, while `processKeyboardInput` may change only position and
speed. -/
theorem keyboard_preserves_orientation (ops : TrigOps) (s : CameraState) :
    ((processKeyboard ops s).yaw = s.yaw ∧
     (processKeyboard ops s).pitch = s.pitch ∧
     (processKeyboard ops s).cameraFront = s.cameraFront ∧
     (processKeyboard ops s).cameraUp = s.cameraUp ∧
     (processKeyboard ops s).lastX = s.lastX ∧
     (processKeyboard ops s).lastY = s.lastY ∧
     (processKeyboard ops s).firstMouse = s.firstMouse ∧
     (processKeyboard ops s).cameraSpeed = s.cameraSpeed ∧
     (processKeyboard ops s).keys = s.keys) ∧
    ((processKeyboardInput ops s).yaw = s.yaw ∧
     (processKeyboardInput ops s).pitch = s.pitch ∧
     (processKeyboardInput ops s).cameraFront = s.cameraFront ∧
     (processKeyboardInput ops s).cameraUp = s.cameraUp ∧
     (processKeyboardInput ops s).lastX = s.lastX ∧
     (processKeyboardInput ops s).lastY = s.lastY ∧
     (processKeyboardInput ops s).firstMouse = s.firstMouse ∧
     (processKeyboardInput ops s).keys = s.keys) := by
  constructor
  · cases hw : s.keys 'w' <;> cases hs : s.keys 's' <;>
      cases ha : s.keys 'a' <;> cases hd : s.keys 'd' <;>
      simp [processKeyboard, hw, hs, ha, hd]
  · cases hw : s.keys 'W' <;> cases hs : s.keys 'S' <;>
      cases ha : s.keys 'A' <;> cases hd : s.keys 'D' <;>
      cases hr : s.keys 'R' <;> cases hf : s.keys 'F' <;>
      simp [processKeyboardInput, hw, hs, ha, hd, hr, hf]

/-- `mouseMotion` is the generic mouse step at sensitivity `0.1`. -/
theorem mouseMotion_eq_update (ops : TrigOps) (x y : Rat) (s : CameraState) :
    mouseMotion ops x y s = mouseUpdate ops (1 / 10) x y s := rfl

/-- `processMouseMovement` is the generic mouse step at sensitivity
`0.05`. -/
theorem processMouseMovement_eq_update (ops : TrigOps) (x y : Rat)
    (s : CameraState) :
    processMouseMovement ops x y s = mouseUpdate ops (1 / 20) x y s := rfl

/-- Behaviour of the generic mouse-look step: first sample only sets the
baseline; later samples add the scaled pointer delta to yaw and the clamped
scaled delta to pitch; pitch stays within `[-89, 89]`; the front vector is
recomputed from the final yaw/pitch by the spherical-to-Cartesian
formula. -/
theorem mouseUpdate_spec (ops : TrigOps) (sens x y : Rat) (s : CameraState)
    (hlo : -89 ≤ s.pitch) (hhi : s.pitch ≤ 89) :
    (s.firstMouse = true →
      (mouseUpdate ops sens x y s).yaw = s.yaw ∧
      (mouseUpdate ops sens x y s).pitch = s.pitch) ∧
    (s.firstMouse = false →
      (mouseUpdate ops sens x y s).yaw = s.yaw + (x - s.lastX) * sens ∧
      (mouseUpdate ops sens x y s).pitch
        = clampPitch (s.pitch + (s.lastY - y) * sens)) ∧
    (-89 ≤ (mouseUpdate ops sens x y s).pitch ∧
      (mouseUpdate ops sens x y s).pitch ≤ 89) ∧
    (mouseUpdate ops sens x y s).cameraFront
      = ops.normalize (frontFromYawPitch ops (mouseUpdate ops sens x y s).yaw
          (mouseUpdate ops sens x y s).pitch) ∧
    (mouseUpdate ops sens x y s).lastX = x ∧
    (mouseUpdate ops sens x y s).lastY = y ∧
    (mouseUpdate ops sens x y s).firstMouse = false := by
  have h89 : ¬((89 : Rat) < -89) := by norm_num
  cases hf : s.firstMouse with
  | true =>
      have hyaw : ¬(89 : Rat) < s.pitch := not_lt.mpr hhi
      have hpit : ¬s.pitch < (-89 : Rat) := not_lt.mpr hlo
      simp only [mouseUpdate, hf]
      simp only [sub_self, zero_mul, add_zero, if_true]
      simp [hyaw, hpit, hlo, hhi]
  | false =>
      simp only [mouseUpdate, hf, Bool.false_eq_true, if_false]
      by_cases hc1 : s.pitch + (s.lastY - y) * sens > 89
      · simp [hc1, h89, clampPitch]
      · by_cases hc2 : s.pitch + (s.lastY - y) * sens < -89
        · simp [hc1, hc2, clampPitch]
        · simp only [hc1, hc2, if_false]
          simp [clampPitch, hc1, hc2]
          constructor <;> linarith [not_lt.mp hc1, not_lt.mp hc2]

/-- C5: in both mouse handlers the first reported pointer position leaves
yaw and pitch unchanged (it only records the baseline and clears the
first-sample flag); every later event with upward-measured pointer delta
`(x - lastX, lastY - y)` adds `delta * sensitivity` to yaw and pitch
(sensitivity `0.1` for `mouseMotion`, `0.05` for `processMouseMovement`),
with pitch clamped to `[-89, 89]`; and the camera front vector is recomputed
from the final yaw and pitch by spherical-to-Cartesian conversion. -/
theorem mouse_look_spec (ops : TrigOps) (x y : Rat) (s : CameraState)
    (hlo : -89 ≤ s.pitch) (hhi : s.pitch ≤ 89) :
    (s.firstMouse = true →
      (mouseMotion ops x y s).yaw = s.yaw ∧
      (mouseMotion ops x y s).pitch = s.pitch ∧
      (processMouseMovement ops x y s).yaw = s.yaw ∧
      (processMouseMovement ops x y s).pitch = s.pitch) ∧
    ((mouseMotion ops x y s).lastX = x ∧ (mouseMotion ops x y s).lastY = y ∧
      (mouseMotion ops x y s).firstMouse = false) ∧
    (s.firstMouse = false →
      (mouseMotion ops x y s).yaw = s.yaw + (x - s.lastX) * (1 / 10) ∧
      (mouseMotion ops x y s).pitch
        = clampPitch (s.pitch + (s.lastY - y) * (1 / 10)) ∧
      (processMouseMovement ops x y s).yaw = s.yaw + (x - s.lastX) * (1 / 20) ∧
      (processMouseMovement ops x y s).pitch
        = clampPitch (s.pitch + (s.lastY - y) * (1 / 20))) ∧
    (-89 ≤ (mouseMotion ops x y s).pitch ∧ (mouseMotion ops x y s).pitch ≤ 89) ∧
    (-89 ≤ (processMouseMovement ops x y s).pitch ∧
      (processMouseMovement ops x y s).pitch ≤ 89) ∧
    (mouseMotion ops x y s).cameraFront
      = ops.normalize (frontFromYawPitch ops (mouseMotion ops x y s).yaw
          (mouseMotion ops x y s).pitch) ∧
    (processMouseMovement ops x y s).cameraFront
      = ops.normalize (frontFromYawPitch ops (processMouseMovement ops x y s).yaw
          (processMouseMovement ops x y s).pitch) := by
  have h1 := mouseUpdate_spec ops (1 / 10) x y s hlo hhi
  have h2 := mouseUpdate_spec ops (1 / 20) x y s hlo hhi
  rw [mouseMotion_eq_update, processMouseMovement_eq_update]
  exact ⟨fun hf => ⟨(h1.1 hf).1, (h1.1 hf).2, (h2.1 hf).1, (h2.1 hf).2⟩,
    ⟨h1.2.2.2.2.1, h1.2.2.2.2.2.1, h1.2.2.2.2.2.2⟩,
    fun hf => ⟨(h1.2.1 hf).1, (h1.2.1 hf).2, (h2.2.1 hf).1, (h2.2.1 hf).2⟩,
    h1.2.2.1, h2.2.2.1, h1.2.2.2.1, h2.2.2.2.1⟩

/-- Witness for C5 at the initial camera state (first sample pending,
pitch 0): the first event changes neither yaw nor pitch. -/
theorem mouse_look_spec_witness :
    (-89 : Rat) ≤ initCameraState.pitch ∧ initCameraState.pitch ≤ 89 ∧
    (mouseMotion noTrig 100 200 initCameraState).yaw = initCameraState.yaw ∧
    (mouseMotion noTrig 100 200 initCameraState).pitch = initCameraState.pitch :=
  ⟨by decide, by decide,
   ((mouse_look_spec noTrig 100 200 initCameraState (by decide) (by decide)).1 rfl).1,
   ((mouse_look_spec noTrig 100 200 initCameraState (by decide) (by decide)).1 rfl).2.1⟩

/-- The geometry of a processed mesh is that of its source mesh. -/
theorem processMesh_meshData (stbi : StbiEnv) (scene : AiScene)
    (model_name : String) (mesh : AiMesh) (st : GLState) :
    meshData (processMesh stbi scene model_name mesh st).1 = sourceData mesh := rfl

/-- The per-node mesh loop appends, in order, the geometry of the meshes the
node references. -/
theorem processNodeMeshes_map (stbi : StbiEnv) (scene : AiScene)
    (model_name : String) :
    ∀ (idxs : List Nat) (meshes : List Mesh) (st : GLState),
      (∀ i ∈ idxs, i < scene.mMeshes.length) →
      ((processNodeMeshes stbi scene model_name idxs meshes st).1).map meshData
        = meshes.map meshData
          ++ idxs.map (fun i => sourceData (scene.mMeshes.getD i default)) := by
  intro idxs
  induction idxs with
  | nil => intro meshes st h; simp [processNodeMeshes]
  | cons idx rest ih =>
      intro meshes st h
      have hidx : idx < scene.mMeshes.length := h idx (List.mem_cons_self idx rest)
      have hsome : scene.mMeshes[idx]? = some scene.mMeshes[idx] :=
        List.getElem?_eq_getElem hidx
      simp only [processNodeMeshes, hsome]
      rw [ih _ _ (fun i hi => h i (List.mem_cons_of_mem idx hi))]
      simp [processMesh_meshData, List.getD, hsome]

mutual

/-- `processNode` appends, in order, the geometry of every mesh reachable
from the node, depth first, node meshes before children. -/
theorem processNode_map (stbi : StbiEnv) (scene : AiScene) (model_name : String) :
    ∀ (node : AiNode) (meshes : List Mesh) (st : GLState),
      (∀ i ∈ reachableMeshIndices node, i < scene.mMeshes.length) →
      ((processNode stbi scene model_name node meshes st).1).map meshData
        = meshes.map meshData ++ (reachableMeshIndices node).map
            (fun i => sourceData (scene.mMeshes.getD i default))
  | .mk ms cs, meshes, st, h => by
      have hms : ∀ i ∈ ms, i < scene.mMeshes.length := fun i hi =>
        h i (by simp [reachableMeshIndices, hi])
      have hcs : ∀ i ∈ reachableMeshIndicesOf cs, i < scene.mMeshes.length :=
        fun i hi => h i (by simp [reachableMeshIndices, hi])
      rw [processNode,
        processChildren_map stbi scene model_name cs _ _ hcs,
        processNodeMeshes_map stbi scene model_name ms meshes st hms]
      simp [reachableMeshIndices, List.append_assoc]

/-- `processNode` over a sibling list, left to right. -/
theorem processChildren_map (stbi : StbiEnv) (scene : AiScene)
    (model_name : String) :
    ∀ (cs : List AiNode) (meshes : List Mesh) (st : GLState),
      (∀ i ∈ reachableMeshIndicesOf cs, i < scene.mMeshes.length) →
      ((processChildren stbi scene model_name cs meshes st).1).map meshData
        = meshes.map meshData ++ (reachableMeshIndicesOf cs).map
            (fun i => sourceData (scene.mMeshes.getD i default))
  | [], meshes, st, h => by simp [processChildren, reachableMeshIndicesOf]
  | c :: rest, meshes, st, h => by
      have hc : ∀ i ∈ reachableMeshIndices c, i < scene.mMeshes.length :=
        fun i hi => h i (by simp [reachableMeshIndicesOf, hi])
      have hrest : ∀ i ∈ reachableMeshIndicesOf rest, i < scene.mMeshes.length :=
        fun i hi => h i (by simp [reachableMeshIndicesOf, hi])
      rw [processChildren,
        processChildren_map stbi scene model_name rest _ _ hrest,
        processNode_map stbi scene model_name c meshes st hc]
      simp [reachableMeshIndicesOf, List.append_assoc]

end

/-- C4: for a scene accepted by `loadModel` (present, complete, rooted),
the loader's meshes list covers exactly the meshes reachable from the root
node in depth-first, meshes-before-children order — geometry for geometry
and one produced `Mesh` per reachable mesh. -/
theorem loadModel_dfs_order (importer : ImporterEnv) (stbi : StbiEnv)
    (loader : ModelLoader) (model_name : String) (st : GLState)
    (scene : AiScene) (root : AiNode)
    (hscene : importer (modelFilePath model_name) = some scene)
    (hflags : scene.flagsIncomplete = false)
    (hroot : scene.mRootNode = some root)
    (hvalid : ∀ i ∈ reachableMeshIndices root, i < scene.mMeshes.length) :
    (loadModel importer stbi loader model_name st).1.meshes.map meshData
      = (reachableMeshIndices root).map
          (fun i => sourceData (scene.mMeshes.getD i default)) ∧
    (loadModel importer stbi loader model_name st).1.meshes.length
      = (reachableMeshIndices root).length := by
  have hmap :
      (loadModel importer stbi loader model_name st).1.meshes.map meshData
        = (reachableMeshIndices root).map
            (fun i => sourceData (scene.mMeshes.getD i default)) := by
    simp only [loadModel, hscene, hflags, hroot, Bool.false_eq_true, if_false]
    rw [processNode_map stbi scene model_name root [] st hvalid]
    simp
  refine ⟨hmap, ?_⟩
  have := congrArg List.length hmap
  simpa using this

/-- Witness for C4 at the concrete one-mesh scene: exactly one mesh comes
out, matching the single reachable mesh index. -/
theorem loadModel_dfs_order_witness :
    importerTri (modelFilePath "monster") = some triScene ∧
    triScene.mRootNode = some (.mk [0] []) ∧
    (loadModel importerTri stbiFail ⟨[]⟩ "monster" initGL).1.meshes.length = 1 := by
  refine ⟨rfl, rfl, ?_⟩
  have h := loadModel_dfs_order importerTri stbiFail ⟨[]⟩ "monster" initGL
    triScene (.mk [0] []) rfl rfl rfl
    (by intro i hi; simp [reachableMeshIndices, reachableMeshIndicesOf] at hi;
        simp [hi, triScene, triMesh])
  rw [h.2]
  rfl

end Abyss
